import Mathlib

/-!
Verification of the Book Catalog Service and the grade-analyzer
top-performer logic of the `innowise_laboratory` repository.

The definitions below are a shallow embedding of the Python sources:
  * `src/lecture_6/book_api/schemas.py` (validation schemas),
  * `src/lecture_6/book_api/services/books.py` and
    `src/lecture_5/book_api/services.py` (pagination),
  * `src/lecture_6/book_api/routers/routers.py` (CRUD and search routes),
  * `src/lecture_3/student_grade_analyzer.py` (top performer).
The database table is modelled as a list of records; SQL `ORDER BY id`
is modelled by sorting the list by identifier, `OFFSET`/`LIMIT` by
`List.drop`/`List.take`, and the HTTP error responses raised via
`HTTPException` by an explicit error type.
-/

/-- Error signals raised by the routes via `HTTPException`:
404 Not Found, 204 No Content, and a database integrity failure
(committing NULL into a `nullable=False` column). -/
inductive ApiError where
  | notFound
  | noContent
  | integrity
deriving Repr, DecidableEq

instance {ε α : Type} [DecidableEq ε] [DecidableEq α] : DecidableEq (Except ε α) :=
  fun x y =>
    match x, y with
    | .ok a, .ok b =>
      if h : a = b then isTrue (by rw [h])
      else isFalse (fun hc => by cases hc; exact h rfl)
    | .error a, .error b =>
      if h : a = b then isTrue (by rw [h])
      else isFalse (fun hc => by cases hc; exact h rfl)
    | .ok _, .error _ => isFalse (fun hc => by cases hc)
    | .error _, .ok _ => isFalse (fun hc => by cases hc)

/-- A row of the `book` table (`models.py`): identifier assigned by the
store, `title`/`author` NOT NULL, `year` nullable. -/
structure Book where
  id : Int
  title : String
  author : String
  year : Option Int
deriving Repr, DecidableEq

/-- The raw JSON value supplied for the `year` field before validation:
JSON null, a string, or an integer (`zero_or_empty_to_none` runs in
`mode="before"`, so it sees the raw value). -/
inductive YearIn where
  | null
  | str (s : String)
  | int (n : Int)
deriving Repr, DecidableEq

/-- A field of an update request body: absent from the JSON object
(`unset`, excluded by `model_dump(exclude_unset=True)`) or explicitly
present with a possibly-null value. -/
inductive FieldIn (α : Type) where
  | unset
  | set (v : α)
deriving Repr, DecidableEq

/-- Whitespace that Python's `int()` (and pydantic's numeric string
parsing) strips from both ends: space, tab, newline, carriage return,
vertical tab, form feed (the ASCII forms). -/
def isPySpace (c : Char) : Bool :=
  c = ' ' || c = '\t' || c = '\n' || c = '\r' || c.toNat = 11 || c.toNat = 12

/-- Strip `isPySpace` characters from both ends. -/
def stripPySpace (cs : List Char) : List Char :=
  ((cs.dropWhile isPySpace).reverse.dropWhile isPySpace).reverse

/-- A plain run of decimal digits: `none` unless every character is a
digit (and there is at least one). -/
def digitsToNat (cs : List Char) : Option Nat :=
  match cs with
  | [] => none
  | [c] => if c.isDigit then some (c.toNat - 48) else none
  | c :: rest =>
    if c.isDigit then
      (digitsToNat rest).map (fun n => (c.toNat - 48) * 10 ^ rest.length + n)
    else none

/-- Digit run continuation allowing a single underscore between two
digits, as Python's `int()` grammar does (`"1_0"` parses, `"1__0"`,
`"1_"` do not). -/
def digitsUnderCore (acc : Nat) (cs : List Char) : Option Nat :=
  match cs with
  | [] => some acc
  | '_' :: c :: rest =>
    if c.isDigit then digitsUnderCore (acc * 10 + (c.toNat - 48)) rest
    else none
  | c :: rest =>
    if c.isDigit then digitsUnderCore (acc * 10 + (c.toNat - 48)) rest
    else none

/-- Decimal digits as Python's `int()` reads them: a leading digit
followed by digits with optional single underscores between digits. -/
def digitsUnder (cs : List Char) : Option Nat :=
  match cs with
  | [] => none
  | c :: rest =>
    if c.isDigit then digitsUnderCore (c.toNat - 48) rest else none

/-- Python's `int(s)` on decimal literals: surrounding whitespace is
stripped, then an optional sign is followed by digits with optional
underscores between digits; anything else raises `ValueError`
(`none`).  Non-ASCII digit forms are not modelled. -/
def pyInt (s : String) : Option Int :=
  match stripPySpace s.data with
  | '-' :: rest => (digitsUnder rest).map (fun n => -(n : Int))
  | '+' :: rest => (digitsUnder rest).map (fun n => (n : Int))
  | cs => (digitsUnder cs).map (fun n => (n : Int))

/-- Split a character list at the first `.`, if any. -/
def splitAtDot (cs : List Char) : List Char × Option (List Char) :=
  match cs with
  | [] => ([], none)
  | '.' :: rest => ([], some rest)
  | c :: rest =>
    let (a, b) := splitAtDot rest
    (c :: a, b)

/-- The unsigned part of pydantic's lax string→int coercion: a digit
run, optionally followed by a decimal point and a run of zeros (so the
string denotes an integral decimal: `"0"`, `"2."`, `"0.0"`, `"2.00"`
coerce; `"2.5"` does not). -/
def laxIntCore (cs : List Char) : Option Nat :=
  let (ip, fp) := splitAtDot cs
  match digitsToNat ip with
  | none => none
  | some n =>
    match fp with
    | none => some n
    | some f => if f.all (fun c => c = '0') then some n else none

/-- Pydantic's lax string→int coercion, applied to strings that reach
the `int | None` field (verified behaviour: `"0.0"` coerces to `0`
even though Python's `int("0.0")` raises): whitespace is trimmed, an
optional sign is followed by an integral decimal.  Decimal exponent
notation and other exotic numeric forms are not modelled. -/
def laxStrToInt (s : String) : Option Int :=
  match stripPySpace s.data with
  | '-' :: rest => (laxIntCore rest).map (fun n => -(n : Int))
  | '+' :: rest => (laxIntCore rest).map (fun n => (n : Int))
  | cs => (laxIntCore cs).map (fun n => (n : Int))

/-- The `zero_or_empty_to_none` validator of `BookBase` (`schemas.py`):
`""` and `None` become `None`; otherwise the value is parsed as an
integer (returned unchanged on parse failure) and `0` becomes `None`. -/
def zero_or_empty_to_none (v : YearIn) : YearIn :=
  match v with
  | .null => .null
  | .str s =>
    if s = "" then .null
    else
      match pyInt s with
      | none => .str s
      | some iv => if iv = 0 then .null else .int iv
  | .int iv => if iv = 0 then .null else .int iv

/-- Validation of the `year` field: the `before`-validator followed by
pydantic's `int | None` typing with `ge=0, le=2030`.  A string that
survives the validator (because `int()` failed on it) is still subject
to pydantic's lax string→int coercion — so `"0.0"` validates to `0`
and is NOT normalized to null.  `none` is a validation error; `some y`
is the validated optional year. -/
def validateYearField (v : YearIn) : Option (Option Int) :=
  match zero_or_empty_to_none v with
  | .null => some none
  | .int n => if 0 ≤ n ∧ n ≤ 2030 then some (some n) else none
  | .str s =>
    match laxStrToInt s with
    | some n => if 0 ≤ n ∧ n ≤ 2030 then some (some n) else none
    | none => none

/-- Year inputs on which the `zero_or_empty_to_none` normalization is
effective: null, an integer, or a string that is empty or parsed by
Python's `int()`.  Strings outside this set can reach pydantic's lax
coercion (e.g. `"0.0"`). -/
def plainYear (v : YearIn) : Bool :=
  match v with
  | .null => true
  | .int _ => true
  | .str s => s = "" || (pyInt s).isSome

/-- Raw body of a create request (`BookCreate` input): `title` and
`author` are required strings, `year` is a raw optional value. -/
structure BookCreateIn where
  title : String
  author : String
  year : YearIn
deriving Repr, DecidableEq

/-- A validated `BookCreate`: `title`/`author` passed `min_length=1`,
`year` is normalized. -/
structure BookCreate where
  title : String
  author : String
  year : Option Int
deriving Repr, DecidableEq

/-- Validation of `BookCreate` (`schemas.py`, inherited from `BookBase`):
`title` and `author` must have length ≥ 1, `year` goes through
`validateYearField`. -/
def validate_BookCreate (r : BookCreateIn) : Option BookCreate :=
  if 1 ≤ r.title.length ∧ 1 ≤ r.author.length then
    (validateYearField r.year).map (fun y => ⟨r.title, r.author, y⟩)
  else none

/-- Raw body of an update request (`BookUpdate` input): every field may
be absent; a present `title`/`author` is `str | None`, a present `year`
is a raw value. -/
structure BookUpdateIn where
  title : FieldIn (Option String)
  author : FieldIn (Option String)
  year : FieldIn YearIn
deriving Repr, DecidableEq

/-- A validated `BookUpdate` (`schemas.py`): `title` and `author` are
redefined as `str | None = Field(default=None)` with NO length
constraint, so any present string (including `""`) or null passes;
`year` keeps the inherited validator and bounds. -/
structure BookUpdate where
  title : FieldIn (Option String)
  author : FieldIn (Option String)
  year : FieldIn (Option Int)
deriving Repr, DecidableEq

/-- Validation of `BookUpdate`: `title`/`author` pass through unchecked
(the subclass redefinition dropped `min_length=1`); a present `year` is
validated as in `BookBase`. -/
def validate_BookUpdate (r : BookUpdateIn) : Option BookUpdate :=
  match r.year with
  | .unset => some ⟨r.title, r.author, .unset⟩
  | .set v => (validateYearField v).map (fun y => ⟨r.title, r.author, .set y⟩)

/-- `compute_offset` from `services.py`: `(page - 1) * limit`. -/
def compute_offset (page limit : Int) : Int :=
  (page - 1) * limit

/-- `clamp_limit` from `services.py`: `min(limit, max_limit)`. -/
def clamp_limit (limit max_limit : Int) : Int :=
  min limit max_limit

/-- The ordering used by `query.order_by(Book.id)`. -/
def idLe (a b : Book) : Prop := a.id ≤ b.id

instance : DecidableRel idLe := fun a b => inferInstanceAs (Decidable (a.id ≤ b.id))

instance : IsTotal Book idLe := ⟨fun a b => le_total a.id b.id⟩

instance : IsTrans Book idLe := ⟨fun _ _ _ h1 h2 => le_trans h1 h2⟩

/-- SQL `ORDER BY Book.id` on the stored rows. -/
def sortById (s : List Book) : List Book :=
  List.insertionSort idLe s

/-- `total_books` from `services/books.py`: `SELECT count(*)`. -/
def total_books (s : List Book) : Int :=
  (s.length : Int)

/-- `get_books` from `services/books.py`: order by id, skip
`compute_offset page limit` rows, take at most `limit` rows. -/
def get_books (s : List Book) (page limit : Int) : List Book :=
  ((sortById s).drop (compute_offset page limit).toNat).take limit.toNat

/-- The paginated response body (`PaginatedBook` in `schemas.py`). -/
structure PaginatedBook where
  books : List Book
  page : Int
  limit : Int
  total : Int
deriving Repr, DecidableEq

/-- `paginate_books` from `services/books.py`: count all rows, clamp
the limit to 25 for the response metadata only, fetch the page with the
UNCLAMPED limit, raise 204 when the page is empty. -/
def paginate_books (s : List Book) (page limit : Int) : Except ApiError PaginatedBook :=
  let total := total_books s
  let clamped_limit := clamp_limit limit 25
  let books := get_books s page limit
  if books.isEmpty then Except.error ApiError.noContent
  else Except.ok ⟨books, page, clamped_limit, total⟩

/-- Case-insensitive substring test, modelling `column.ilike(f"%{v}%")`. -/
def containsSub (needle hay : List Char) : Bool :=
  match hay with
  | [] => needle.isEmpty
  | _ :: t => needle.isPrefixOf hay || containsSub needle t

/-- `ilike` of the search route: case-insensitive containment. -/
def ciContains (hay needle : String) : Bool :=
  containsSub needle.toLower.data hay.toLower.data

/-- Python truthiness of an optional string (`if search_by_title:`):
`None` and `""` are falsy. -/
def truthyStr (v : Option String) : Bool :=
  match v with
  | none => false
  | some s => ¬ s = ""

/-- The `filters` list built by `search_book` (`routers.py`): an
`ilike`-substring filter for each truthy string criterion and an exact
equality filter when `search_by_year is not None`. -/
def search_filters (t a : Option String) (y : Option Int) : List (Book → Bool) :=
  (match t with
   | some ts => if ts = "" then [] else [fun b => ciContains b.title ts]
   | none => []) ++
  (match a with
   | some as_ => if as_ = "" then [] else [fun b => ciContains b.author as_]
   | none => []) ++
  (match y with
   | some yv => [fun b => b.year == some yv]
   | none => [])

/-- `query.where(*filters)`: the conjunction of all supplied filters
(vacuously true when `filters` is empty, i.e. the unfiltered query). -/
def search_matches (t a : Option String) (y : Option Int) (b : Book) : Bool :=
  (search_filters t a y).all (fun f => f b)

/-- The filtered total of `search_book`:
`SELECT count(*) FROM (query)`. -/
def search_total (s : List Book) (t a : Option String) (y : Option Int) : Int :=
  ((s.filter (search_matches t a y)).length : Int)

/-- The page fetched by `search_book`:
`query.order_by(Book.id).offset((page-1)*limit).limit(limit)`. -/
def search_page (s : List Book) (t a : Option String) (y : Option Int)
    (page limit : Int) : List Book :=
  ((sortById (s.filter (search_matches t a y))).drop ((page - 1) * limit).toNat).take
    limit.toNat

/-- The `GET /books/search` route (`routers.py`): build filters, count
matches, fetch the ordered page, and raise 204 when no filters were
supplied or the fetched page is empty. -/
def search_book (s : List Book) (t a : Option String) (y : Option Int)
    (page limit : Int) : Except ApiError PaginatedBook :=
  let filters := search_filters t a y
  let total := search_total s t a y
  let clamped_limit := clamp_limit limit 25
  let books := search_page s t a y page limit
  if filters.isEmpty || books.isEmpty then Except.error ApiError.noContent
  else Except.ok ⟨books, page, clamped_limit, total⟩

/-- `database.get(Book, book_id)`: primary-key lookup. -/
def get_book (s : List Book) (book_id : Int) : Option Book :=
  s.find? (fun b => b.id == book_id)

/-- Modelled from the spec: the single-read operation of §4.3 ("Read
(single): fetch by identifier; not found if absent") has no route in
`src/`; its fetch-by-identifier is `database.get` as used by the update
and delete routes. -/
def read_book (s : List Book) (book_id : Int) : Except ApiError Book :=
  match get_book s book_id with
  | none => Except.error ApiError.notFound
  | some b => Except.ok b

/-- The identifier the store assigns to a newly inserted row
(autoincrement primary key): one past the largest existing id. -/
def nextId (s : List Book) : Int :=
  1 + (s.map Book.id).foldr max 0

/-- The `POST /books/` route (`routers.py`): build a `Book` from the
validated request, insert it, and return the persisted record with its
assigned id. -/
def create_book (s : List Book) (r : BookCreate) : List Book × Book :=
  let b : Book := ⟨nextId s, r.title, r.author, r.year⟩
  (s ++ [b], b)

/-- The `PUT /books/{book_id}` route (`routers.py`): 404 when the id is
absent; otherwise overwrite exactly the fields present in the request
(`model_dump(exclude_unset=True)` + `sqlmodel_update`) and commit.
Committing a NULL `title` or `author` violates `nullable=False` and
fails as a store error. -/
def update_book (s : List Book) (book_id : Int) (u : BookUpdate) :
    Except ApiError (List Book × Book) :=
  match get_book s book_id with
  | none => Except.error ApiError.notFound
  | some b =>
    let newTitle := match u.title with | .unset => some b.title | .set v => v
    let newAuthor := match u.author with | .unset => some b.author | .set v => v
    let newYear := match u.year with | .unset => b.year | .set v => v
    match newTitle, newAuthor with
    | some t, some a =>
      let b2 : Book := ⟨b.id, t, a, newYear⟩
      Except.ok (s.map (fun c => if c.id = book_id then b2 else c), b2)
    | _, _ => Except.error ApiError.integrity

/-- The `DELETE /books/{book_id}` route (`routers.py`): 404 before any
mutation when the id is absent (store unchanged); otherwise remove the
row with that primary key and return no value. -/
def delete_book (s : List Book) (book_id : Int) :
    List Book × Except ApiError Unit :=
  match get_book s book_id with
  | none => (s, Except.error ApiError.notFound)
  | some _ => (s.filter (fun c => decide (c.id ≠ book_id)), Except.ok ())

/-- The invariant of claim C10: no stored row has `year = 0`. -/
def NoYearZero (s : List Book) : Prop :=
  ∀ b ∈ s, b.year ≠ some 0

/-- The invariant of §3 of the spec: no stored row has an empty (or
missing) title or author. -/
def TitlesAuthorsNonEmpty (s : List Book) : Prop :=
  ∀ b ∈ s, b.title ≠ "" ∧ b.author ≠ ""

/-! ### Grade analyzer (`src/lecture_3/student_grade_analyzer.py`) -/

/-- A student record: a name and a list of integer grades (grades are
validated to lie in `[0, 100]` by `add_grades`). -/
structure Student where
  name : String
  grades : List Int
deriving Repr, DecidableEq

/-- The grade-range check of `add_grades`: `0 <= grade <= 100`. -/
def valid_grade (g : Int) : Prop := 0 ≤ g ∧ g ≤ 100

instance : DecidablePred valid_grade :=
  fun g => inferInstanceAs (Decidable (0 ≤ g ∧ g ≤ 100))

/-- Round-half-to-even to an integer, the behaviour of Python's
built-in `round`. -/
def rhe (q : ℚ) : ℤ :=
  if q - (⌊q⌋ : ℚ) = 1 / 2 then (if 2 ∣ ⌊q⌋ then ⌊q⌋ else ⌊q⌋ + 1)
  else round q

/-- `calculate_average`: `round(sum(grades) / len(grades), 1)` —
the mean rounded to one decimal place. -/
def calculate_average (grades : List Int) : ℚ :=
  ((rhe (10 * ((grades.sum : ℚ) / (grades.length : ℚ)))) : ℚ) / 10

/-- The ranking key of `top_performer`'s `max(...)` call:
`calculate_average(grades if grades else [-1])`, i.e. scoreless
students rank with the sentinel average of `[-1]`. -/
def rank_key (st : Student) : ℚ :=
  calculate_average (if st.grades.isEmpty then [-1] else st.grades)

/-- One step of Python's `max` over an iterable with a key: the current
best is replaced only by a strictly greater candidate, so the first
maximal element wins. -/
def pstep (best y : Student) : Student :=
  if rank_key best < rank_key y then y else best

/-- Python's `max(x :: xs, key=rank_key)` as a left fold. -/
def pmax (x : Student) (xs : List Student) : Student :=
  xs.foldl pstep x

/-- `max(students, key=...)` of `top_performer` (`none` on the empty
list, where Python would raise). -/
def top_student (students : List Student) : Option Student :=
  match students with
  | [] => none
  | x :: xs => some (pmax x xs)

/-- `any_grades`: whether any student has at least one grade. -/
def any_grades (students : List Student) : Bool :=
  students.any (fun st => !st.grades.isEmpty)

/-- The `all_averages` comprehension of `top_performer`: name/average
pairs of exactly the students who have grades. -/
def all_averages (students : List Student) : List (String × ℚ) :=
  (students.filter (fun st => !st.grades.isEmpty)).map
    (fun st => (st.name, calculate_average st.grades))

/-- The `all_top_students` selection of `top_performer`: the names in
`all_averages` whose average equals the top student's average. -/
def top_names (students : List Student) : List String :=
  match top_student students with
  | none => []
  | some ts =>
    ((all_averages students).filter
      (fun p => decide (p.2 = calculate_average ts.grades))).map Prod.fst

/-! ### Concrete data used by witnesses and counterexamples -/

/-- A one-book store. -/
def demoStore : List Book := [⟨1, "Dune", "Herbert", none⟩]

/-- An update request whose body is exactly `{"title": ""}`. -/
def emptyTitleReq : BookUpdateIn := ⟨.set (some ""), .unset, .unset⟩

/-- A store of 26 books with ids 1..26. -/
def bigStore : List Book :=
  (List.range 26).map (fun i => ⟨(i : Int) + 1, "T", "A", none⟩)

/-- Two students, one graded and one scoreless. -/
def demoStudents : List Student :=
  [⟨"Alice", [90, 80]⟩, ⟨"Bob", []⟩]

/-! ### Helper lemmas -/

theorem ne_empty_of_one_le_length {s : String} (h : 1 ≤ s.length) : s ≠ "" := by
  intro heq
  rw [heq] at h
  exact absurd h (by decide)

theorem mem_le_foldr_max {l : List Int} {x : Int} (h : x ∈ l) :
    x ≤ l.foldr max 0 := by
  induction l with
  | nil => cases h
  | cons a t ih =>
    rcases List.mem_cons.mp h with rfl | h2
    · exact le_max_left _ _
    · exact le_trans (ih h2) (le_max_right _ _)

theorem id_lt_nextId {s : List Book} {b : Book} (h : b ∈ s) : b.id < nextId s := by
  have : b.id ≤ (s.map Book.id).foldr max 0 :=
    mem_le_foldr_max (List.mem_map_of_mem Book.id h)
  unfold nextId
  omega

theorem find?_append_of_none {α : Type} {p : α → Bool} {l1 l2 : List α}
    (h : ∀ c ∈ l1, p c = false) : (l1 ++ l2).find? p = l2.find? p := by
  induction l1 with
  | nil => rfl
  | cons a t ih =>
    rw [List.cons_append, List.find?_cons, h a (List.mem_cons_self a t)]
    exact ih (fun c hc => h c (List.mem_cons_of_mem a hc))

theorem zero_norm_not_zero {v : YearIn} {n : Int}
    (h : zero_or_empty_to_none v = .int n) : n ≠ 0 := by
  unfold zero_or_empty_to_none at h
  cases v with
  | null => exact absurd h (by simp)
  | str s =>
    by_cases hs : s = ""
    · simp [hs] at h
    · simp only [hs, if_false] at h
      cases hp : pyInt s with
      | none => rw [hp] at h; exact absurd h (by simp)
      | some iv =>
        rw [hp] at h
        by_cases hz : iv = 0
        · simp [hz] at h
        · simp only [hz, if_false] at h
          cases h
          exact hz
  | int iv =>
    by_cases hz : iv = 0
    · simp [hz] at h
    · simp only [hz, if_false] at h
      cases h
      exact hz

theorem plain_zero_norm {v : YearIn} (hp : plainYear v = true) :
    zero_or_empty_to_none v = .null ∨
    ∃ n, n ≠ 0 ∧ zero_or_empty_to_none v = .int n := by
  cases v with
  | null => exact Or.inl rfl
  | int n =>
    by_cases hn : n = 0
    · exact Or.inl (by simp [zero_or_empty_to_none, hn])
    · exact Or.inr ⟨n, hn, by simp [zero_or_empty_to_none, hn]⟩
  | str s =>
    by_cases hs : s = ""
    · exact Or.inl (by simp [zero_or_empty_to_none, hs])
    · have hps : (pyInt s).isSome = true := by
        unfold plainYear at hp
        simpa [hs] using hp
      obtain ⟨iv, hiv⟩ := Option.isSome_iff_exists.mp hps
      by_cases h0 : iv = 0
      · exact Or.inl (by simp [zero_or_empty_to_none, hs, hiv, h0])
      · exact Or.inr ⟨iv, h0, by simp [zero_or_empty_to_none, hs, hiv, h0]⟩

theorem plainYear_validate_not_zero {v : YearIn} {w : Option Int}
    (hp : plainYear v = true) (h : validateYearField v = some w) :
    w ≠ some 0 := by
  unfold validateYearField at h
  rcases plain_zero_norm hp with hz | ⟨n, hn, hz⟩ <;> simp only [hz] at h
  · simp only [Option.some.injEq] at h
    subst h
    simp
  · split_ifs at h with hcond
    simp only [Option.some.injEq] at h
    subst h
    simp [hn]

theorem update_book_inv {s : List Book} {book_id : Int} {u : BookUpdate}
    {s2 : List Book} {b : Book}
    (hok : update_book s book_id u = Except.ok (s2, b)) :
    ∃ orig, get_book s book_id = some orig ∧
      b.id = orig.id ∧
      (u.title = .unset → b.title = orig.title) ∧
      (u.author = .unset → b.author = orig.author) ∧
      (u.year = .unset → b.year = orig.year) ∧
      (∀ v, u.title = .set v → v = some b.title) ∧
      (∀ v, u.author = .set v → v = some b.author) ∧
      (∀ v, u.year = .set v → b.year = v) ∧
      s2 = s.map (fun c => if c.id = book_id then b else c) := by
  cases hg : get_book s book_id with
  | none => rw [update_book, hg] at hok; exact absurd hok (by simp)
  | some orig =>
    rw [update_book, hg] at hok
    refine ⟨orig, rfl, ?_⟩
    rcases u with ⟨ut, ua, uy⟩
    cases ut with
    | unset =>
      cases ua with
      | unset =>
        simp only [Except.ok.injEq, Prod.mk.injEq] at hok
        obtain ⟨hs2, hb⟩ := hok
        subst hb
        cases uy <;>
          simp_all
      | set av =>
        cases av with
        | none => exact absurd hok (by simp)
        | some a =>
          simp only [Except.ok.injEq, Prod.mk.injEq] at hok
          obtain ⟨hs2, hb⟩ := hok
          subst hb
          cases uy <;> simp_all
    | set tv =>
      cases tv with
      | none => exact absurd hok (by simp)
      | some t =>
        cases ua with
        | unset =>
          simp only [Except.ok.injEq, Prod.mk.injEq] at hok
          obtain ⟨hs2, hb⟩ := hok
          subst hb
          cases uy <;> simp_all
        | set av =>
          cases av with
          | none => exact absurd hok (by simp)
          | some a =>
            simp only [Except.ok.injEq, Prod.mk.injEq] at hok
            obtain ⟨hs2, hb⟩ := hok
            subst hb
            cases uy <;> simp_all

/-! ### Claim theorems -/

/-- C6: for every store, page ≥ 1 and limit ≥ 1, the page fetch returns
the records ordered by identifier ascending, after skipping exactly
`compute_offset page limit = (page - 1) * limit` records and taking at
most `limit` records; in particular `compute_offset 1 n = 0` for every
`n`. -/
theorem C6_page_fetch (s : List Book) (page limit : Int)
    (hp : 1 ≤ page) (hl : 1 ≤ limit) :
    get_books s page limit =
      ((sortById s).drop (compute_offset page limit).toNat).take limit.toNat ∧
    List.Sorted idLe (get_books s page limit) ∧
    (sortById s).Perm s ∧
    (get_books s page limit).length ≤ limit.toNat ∧
    compute_offset page limit = (page - 1) * limit ∧
    (∀ n : Int, compute_offset 1 n = 0) := by
  refine ⟨rfl, ?_, List.perm_insertionSort idLe s, ?_, rfl, ?_⟩
  · exact List.Pairwise.sublist
      ((List.take_sublist _ _).trans (List.drop_sublist _ _))
      (List.sorted_insertionSort idLe s)
  · exact List.length_take_le _ _
  · intro n
    simp [compute_offset]

/-- C6 witness: the page-fetch theorem applied to the one-book store at
page 1 with limit 10. -/
theorem C6_page_fetch_witness :
    (1 : Int) ≤ 1 ∧ (1 : Int) ≤ 10 ∧ compute_offset 1 10 = 0 :=
  ⟨by decide, by decide,
    (C6_page_fetch demoStore 1 10 (by decide) (by decide)).2.2.2.2.2 10⟩

/-- C8: whenever the fetched page of the list operation is empty the
operation signals no-content instead of returning a 200 page; in
particular listing page 1 with limit 10 on the empty store fetches an
empty page, counts a total of 0, and signals no-content. -/
theorem C8_empty_page_no_content (s : List Book) (page limit : Int)
    (h : get_books s page limit = []) :
    paginate_books s page limit = Except.error ApiError.noContent ∧
    get_books ([] : List Book) 1 10 = [] ∧
    total_books ([] : List Book) = 0 ∧
    paginate_books ([] : List Book) 1 10 = Except.error ApiError.noContent := by
  refine ⟨?_, rfl, rfl, rfl⟩
  unfold paginate_books
  simp [h]

/-- C8 witness: the no-content theorem applied to the empty store at
page 1 with limit 10. -/
theorem C8_empty_page_no_content_witness :
    paginate_books ([] : List Book) 1 10 = Except.error ApiError.noContent :=
  (C8_empty_page_no_content ([] : List Book) 1 10 rfl).1

/-- C2: for every page ≥ 1 and limit ≥ 1, a successful paginated list
reports the clamped limit `min limit 25` in its metadata while the
fetched books come from the unclamped caller-supplied limit, so the
books list can hold up to `limit` records even past 25 — exhibited on a
26-book store where a request with limit 26 returns 26 books but
reports limit 25. -/
theorem C2_clamped_report_unclamped_fetch (s : List Book) (page limit : Int)
    (hp : 1 ≤ page) (hl : 1 ≤ limit) :
    (∀ pb, paginate_books s page limit = Except.ok pb →
      pb.limit = min limit 25 ∧
      pb.books = get_books s page limit ∧
      pb.books.length ≤ limit.toNat ∧
      pb.total = total_books s ∧
      pb.page = page) ∧
    clamp_limit limit 25 = min limit 25 ∧
    (paginate_books bigStore 1 26).toOption.map
      (fun pb => (pb.books.length, pb.limit)) = some (26, 25) := by
  refine ⟨?_, rfl, rfl⟩
  intro pb hok
  unfold paginate_books at hok
  simp only [] at hok
  by_cases hbe : (get_books s page limit).isEmpty = true
  · rw [if_pos hbe] at hok
    exact absurd hok (by simp)
  · rw [if_neg hbe] at hok
    simp only [Except.ok.injEq] at hok
    subst hok
    exact ⟨rfl, rfl, List.length_take_le _ _, rfl, rfl⟩

/-- C2 witness: the clamping theorem applied to the 26-book store at
page 1 with limit 26. -/
theorem C2_clamped_report_unclamped_fetch_witness :
    (paginate_books bigStore 1 26).toOption.map
      (fun pb => (pb.books.length, pb.limit)) = some (26, 25) :=
  (C2_clamped_report_unclamped_fetch bigStore 1 26 (by decide) (by decide)).2.2

/-- C3: the search operation signals no-content whenever no filter
criteria were supplied or the fetched page of matching records is
empty; in particular a search with no criteria signals a miss on every
store and never returns a 200 page of records. -/
theorem C3_search_without_filters_misses (s : List Book)
    (t a : Option String) (y : Option Int) (page limit : Int)
    (h : search_filters t a y = [] ∨ search_page s t a y page limit = []) :
    search_book s t a y page limit = Except.error ApiError.noContent ∧
    search_filters none none none = [] ∧
    (∀ s2 : List Book, ∀ p l : Int,
      search_book s2 none none none p l = Except.error ApiError.noContent) := by
  refine ⟨?_, rfl, fun s2 p l => rfl⟩
  unfold search_book
  rcases h with h | h <;> simp [h]

/-- C3 witness: the search-miss theorem applied to the one-book store
with no criteria supplied. -/
theorem C3_search_without_filters_misses_witness :
    search_book demoStore none none none 1 10 = Except.error ApiError.noContent :=
  (C3_search_without_filters_misses demoStore none none none 1 10 (Or.inl rfl)).1

/-- C4: update is partial — for every existing record and every
successful update, the new value of each field not present in the
request equals the stored record's previous value (omitted fields are
not reset), and records with other identifiers are untouched; an
update supplying only `title` therefore leaves `author` and `year`
unchanged. -/
theorem C4_partial_update (s : List Book) (book_id : Int) (u : BookUpdate)
    (orig : Book) (s2 : List Book) (b : Book)
    (hget : get_book s book_id = some orig)
    (hok : update_book s book_id u = Except.ok (s2, b)) :
    b.id = orig.id ∧
    (u.title = .unset → b.title = orig.title) ∧
    (u.author = .unset → b.author = orig.author) ∧
    (u.year = .unset → b.year = orig.year) ∧
    (u.author = .unset → u.year = .unset →
      b.author = orig.author ∧ b.year = orig.year) ∧
    (∀ c ∈ s, c.id ≠ book_id → c ∈ s2) := by
  obtain ⟨orig2, hget2, hid, ht, ha, hy, _, _, _, hs2⟩ := update_book_inv hok
  rw [hget] at hget2
  injection hget2 with he
  subst he
  refine ⟨hid, ht, ha, hy, fun h1 h2 => ⟨ha h1, hy h2⟩, ?_⟩
  intro c hc hne
  subst hs2
  refine List.mem_map.mpr ⟨c, hc, ?_⟩
  simp [hne]

/-- C4 witness: updating only the title of the stored book leaves its
author and year unchanged. -/
theorem C4_partial_update_witness :
    (Book.mk 1 "New" "Herbert" none).author =
      (Book.mk 1 "Dune" "Herbert" none).author ∧
    (Book.mk 1 "New" "Herbert" none).year =
      (Book.mk 1 "Dune" "Herbert" none).year :=
  (C4_partial_update demoStore 1 ⟨.set (some "New"), .unset, .unset⟩
    ⟨1, "Dune", "Herbert", none⟩ [⟨1, "New", "Herbert", none⟩]
    ⟨1, "New", "Herbert", none⟩ (by decide) (by decide)).2.2.2.2.1 rfl rfl

/-- C5 counterexample: the year-normalization clause of the round-trip
claim fails on a program-valid input — a zero-valued year supplied as
the decimal string `"0.0"` passes validation via pydantic's lax
string→int coercion (Python's `int("0.0")` raises, so the validator
returns the string unchanged) and is stored and read back as year `0`,
not as null. -/
theorem C5_create_stores_year_zero_cex :
    validate_BookCreate ⟨"Dune", "Herbert", .str "0.0"⟩ =
      some ⟨"Dune", "Herbert", some 0⟩ ∧
    read_book (create_book [] ⟨"Dune", "Herbert", some 0⟩).1 1 =
      Except.ok ⟨1, "Dune", "Herbert", some 0⟩ :=
  ⟨by decide, by decide⟩

/-- C5 (amended): create-then-read round trip — for every validated
create input, creating the record and reading it back by the returned
identifier yields the same record, whose title/author equal the input
(and are non-empty) and whose year is the validated input year; a year
supplied as the integer `0`, as the empty string, or as a string that
Python's `int()` parses to `0` is normalized to null before storage
(but a zero-valued decimal string such as `"0.0"` is lax-coerced and
stored as `0`, see the counterexample). -/
theorem C5_create_then_read (s : List Book) (r : BookCreateIn) (bc : BookCreate)
    (hv : validate_BookCreate r = some bc) :
    read_book (create_book s bc).1 (create_book s bc).2.id =
      Except.ok (create_book s bc).2 ∧
    (create_book s bc).2.title = r.title ∧
    (create_book s bc).2.author = r.author ∧
    (create_book s bc).2.year = bc.year ∧
    validateYearField r.year = some bc.year ∧
    (r.year = .int 0 → bc.year = none) ∧
    (r.year = .str "" → bc.year = none) ∧
    (∀ cs, r.year = .str cs → pyInt cs = some 0 → bc.year = none) ∧
    (create_book s bc).2.title ≠ "" ∧
    (create_book s bc).2.author ≠ "" := by
  unfold validate_BookCreate at hv
  split_ifs at hv with hlen
  · obtain ⟨y, hy, hbc⟩ := Option.map_eq_some'.mp hv
    subst hbc
    have hfresh : ∀ c ∈ s, ((fun c => c.id == nextId s) c) = false := by
      intro c hc
      have := id_lt_nextId hc
      simp only [beq_eq_false_iff_ne, ne_eq]
      omega
    have hg : get_book (create_book s ⟨r.title, r.author, y⟩).1
        (create_book s ⟨r.title, r.author, y⟩).2.id =
        some (create_book s ⟨r.title, r.author, y⟩).2 := by
      show (s ++ [(⟨nextId s, r.title, r.author, y⟩ : Book)]).find?
        (fun c => c.id == nextId s) = _
      rw [find?_append_of_none hfresh]
      simp [List.find?]
      rfl
    refine ⟨?_, rfl, rfl, rfl, hy, ?_, ?_, ?_,
      ne_empty_of_one_le_length hlen.1, ne_empty_of_one_le_length hlen.2⟩
    · unfold read_book
      rw [hg]
    · intro hr
      rw [hr] at hy
      have : validateYearField (.int 0) = some none := rfl
      rw [this] at hy
      injection hy with he
      exact he.symm
    · intro hr
      rw [hr] at hy
      have : validateYearField (.str "") = some none := rfl
      rw [this] at hy
      injection hy with he
      exact he.symm
    · intro cs hr h0
      rw [hr] at hy
      have hz : zero_or_empty_to_none (.str cs) = .null := by
        unfold zero_or_empty_to_none
        by_cases hcs : cs = ""
        · simp [hcs]
        · simp [hcs, h0]
      unfold validateYearField at hy
      rw [hz] at hy
      injection hy with he
      exact he.symm

/-- C5 witness: creating `{title: "Dune", author: "Herbert", year: 0}`
on the empty store and reading id 1 back returns that record with a
null year. -/
theorem C5_create_then_read_witness :
    validate_BookCreate ⟨"Dune", "Herbert", .int 0⟩ =
      some ⟨"Dune", "Herbert", none⟩ ∧
    read_book (create_book [] ⟨"Dune", "Herbert", none⟩).1
        (create_book [] ⟨"Dune", "Herbert", none⟩).2.id =
      Except.ok (create_book [] ⟨"Dune", "Herbert", none⟩).2 :=
  ⟨by decide,
    (C5_create_then_read [] ⟨"Dune", "Herbert", .int 0⟩
      ⟨"Dune", "Herbert", none⟩ (by decide)).1⟩

/-- C9: delete signals not-found exactly when no record with the given
identifier exists, leaving the store unchanged in that case; on success
it returns no value, the record with that identifier is removed and no
other record is touched, and a subsequent read of that identifier
signals not-found. -/
theorem C9_delete_then_read (s : List Book) (book_id : Int) :
    ((delete_book s book_id).2 = Except.error ApiError.notFound ↔
      get_book s book_id = none) ∧
    (get_book s book_id = none → (delete_book s book_id).1 = s) ∧
    (∀ b, get_book s book_id = some b →
      (delete_book s book_id).2 = Except.ok () ∧
      b ∉ (delete_book s book_id).1 ∧
      (∀ c ∈ s, c.id ≠ book_id → c ∈ (delete_book s book_id).1) ∧
      (∀ c ∈ (delete_book s book_id).1, c ∈ s) ∧
      read_book (delete_book s book_id).1 book_id =
        Except.error ApiError.notFound) := by
  cases hg : get_book s book_id with
  | none => simp [delete_book, hg]
  | some b0 =>
    have hb0id : b0.id = book_id := by
      have h2 := List.find?_some hg
      simpa using h2
    refine ⟨by simp [delete_book, hg], ?_, ?_⟩
    · intro h
      exact absurd h (by simp)
    · intro b hb
      have he : b0 = b := by injection hb
      subst he
      refine ⟨by simp [delete_book, hg], ?_, ?_, ?_, ?_⟩
      · intro hmem
        simp only [delete_book, hg, List.mem_filter, decide_eq_true_eq] at hmem
        exact hmem.2 hb0id
      · intro c hc hne
        simp only [delete_book, hg, List.mem_filter, decide_eq_true_eq]
        exact ⟨hc, hne⟩
      · intro c hc
        simp only [delete_book, hg, List.mem_filter, decide_eq_true_eq] at hc
        exact hc.1
      · have hnone : get_book (delete_book s book_id).1 book_id = none := by
          unfold get_book
          apply List.find?_eq_none.mpr
          intro x hx
          simp only [delete_book, hg, List.mem_filter, decide_eq_true_eq] at hx
          simp [hx.2]
        simp [read_book, hnone]

/-- C9 witness: deleting the stored book with id 1 succeeds and a
subsequent read of id 1 signals not-found. -/
theorem C9_delete_then_read_witness :
    (delete_book demoStore 1).2 = Except.ok () ∧
    read_book (delete_book demoStore 1).1 1 = Except.error ApiError.notFound :=
  ⟨((C9_delete_then_read demoStore 1).2.2 ⟨1, "Dune", "Herbert", none⟩
      (by decide)).1,
    ((C9_delete_then_read demoStore 1).2.2 ⟨1, "Dune", "Herbert", none⟩
      (by decide)).2.2.2.2⟩

/-- C10 counterexample: a validated create CAN store `year = 0` — the
create body `{title: "T", author: "A", year: "0.0"}` passes validation
(pydantic's lax coercion turns the string the validator left alone
into `0`), the record is stored with year `0`, and the search with
only the exact-year criterion `0` then matches it and returns a 200
page instead of signalling no-content. -/
theorem C10_year_zero_search_hits_cex :
    validate_BookCreate ⟨"T", "A", .str "0.0"⟩ = some ⟨"T", "A", some 0⟩ ∧
    (create_book [] ⟨"T", "A", some 0⟩).1 = [⟨1, "T", "A", some 0⟩] ∧
    search_book [⟨1, "T", "A", some 0⟩] none none (some 0) 1 10 =
      Except.ok ⟨[⟨1, "T", "A", some 0⟩], 1, 10, 1⟩ :=
  ⟨by decide, rfl, by decide⟩

/-- C10 (amended): writes validated from a PLAIN year input — null, an
integer, or a string Python's `int()` parses — never store `year = 0`
(a supplied `0` is normalized to null) and preserve the no-year-0
invariant; on any store satisfying the invariant, a search supplying
only the exact-year criterion `0` — which IS an accepted filter value
producing a filter — matches nothing and signals no-content.  (A year
supplied as a zero-valued decimal string such as `"0.0"` escapes the
normalization and stores `0`, see the counterexample.) -/
theorem C10_year_zero_search_misses (s : List Book) :
    (∀ r bc, validate_BookCreate r = some bc → plainYear r.year = true →
      bc.year ≠ some 0) ∧
    (∀ r u, validate_BookUpdate r = some u →
      (∀ v, r.year = .set v → plainYear v = true) →
      ∀ y : Int, u.year = .set (some y) → y ≠ 0) ∧
    (NoYearZero s → ∀ r bc, validate_BookCreate r = some bc →
      plainYear r.year = true → NoYearZero (create_book s bc).1) ∧
    (NoYearZero s → ∀ book_id r u s2 b, validate_BookUpdate r = some u →
      (∀ v, r.year = .set v → plainYear v = true) →
      update_book s book_id u = Except.ok (s2, b) → NoYearZero s2) ∧
    (NoYearZero s → ∀ page limit : Int,
      search_book s none none (some 0) page limit =
        Except.error ApiError.noContent) ∧
    search_filters none none (some 0) ≠ [] := by
  have hcreate : ∀ r bc, validate_BookCreate r = some bc →
      plainYear r.year = true → bc.year ≠ some 0 := by
    intro r bc hv hp
    unfold validate_BookCreate at hv
    split_ifs at hv with hlen
    obtain ⟨y, hy, hbc⟩ := Option.map_eq_some'.mp hv
    subst hbc
    exact plainYear_validate_not_zero hp hy
  have hupd : ∀ r u, validate_BookUpdate r = some u →
      (∀ v0, r.year = .set v0 → plainYear v0 = true) →
      ∀ v, u.year = .set v → v ≠ some 0 := by
    intro r u hv hp v hset
    unfold validate_BookUpdate at hv
    cases hry : r.year with
    | unset =>
      rw [hry] at hv
      injection hv with he
      subst he
      cases hset
    | set w =>
      rw [hry] at hv
      obtain ⟨y, hy, hu⟩ := Option.map_eq_some'.mp hv
      subst hu
      have he : y = v := by injection hset
      subst he
      exact plainYear_validate_not_zero (hp w hry) hy
  refine ⟨hcreate, ?_, ?_, ?_, ?_, by simp [search_filters]⟩
  · intro r u hv hp y hset
    intro hy0
    subst hy0
    exact hupd r u hv hp (some 0) hset rfl
  · intro hinv r bc hv hp
    intro b hb
    rcases List.mem_append.mp hb with hb | hb
    · exact hinv b hb
    · have he : b = ⟨nextId s, bc.title, bc.author, bc.year⟩ := by
        simpa using hb
      subst he
      exact hcreate r bc hv hp
  · intro hinv book_id r u s2 b hv hp hok
    obtain ⟨orig, hget, _, _, _, hy, _, _, hyset, hs2⟩ := update_book_inv hok
    subst hs2
    intro c hc
    rcases List.mem_map.mp hc with ⟨x, hx, hfx⟩
    by_cases hxe : x.id = book_id
    · rw [if_pos hxe] at hfx
      subst hfx
      cases hu : u.year with
      | unset =>
        rw [hy hu]
        exact hinv orig (List.mem_of_find?_eq_some hget)
      | set v =>
        rw [hyset v hu]
        exact hupd r u hv hp v hu
    · rw [if_neg hxe] at hfx
      subst hfx
      exact hinv x hx
  · intro hinv page limit
    have hfil : s.filter (search_matches none none (some 0)) = [] := by
      apply List.filter_eq_nil_iff.mpr
      intro b hb
      simp only [search_matches, search_filters, List.nil_append,
        List.all_cons, List.all_nil, Bool.and_true, beq_iff_eq]
      exact hinv b hb
    unfold search_book
    simp [search_page, hfil, sortById, search_filters]

/-- C10 witness: on the one-book store (whose record has a null year)
the year-0 search signals no-content. -/
theorem C10_year_zero_search_misses_witness :
    search_book demoStore none none (some 0) 1 10 =
      Except.error ApiError.noContent :=
  (C10_year_zero_search_misses demoStore).2.2.2.2.1
    (by unfold NoYearZero; decide) 1 10

/-- C1: the claimed invariant — no create or update can leave a stored
record with an empty title or author — is violated by the code: the
update schema drops the minimum-length constraint, so the update
request `{"title": ""}` passes validation and stores an empty title
over a previously well-formed record. -/
theorem C1_update_stores_empty_title :
    validate_BookUpdate emptyTitleReq =
      some ⟨.set (some ""), .unset, .unset⟩ ∧
    update_book demoStore 1 ⟨.set (some ""), .unset, .unset⟩ =
      Except.ok ([⟨1, "", "Herbert", none⟩], ⟨1, "", "Herbert", none⟩) ∧
    TitlesAuthorsNonEmpty demoStore ∧
    ¬ TitlesAuthorsNonEmpty [⟨1, "", "Herbert", none⟩] :=
  ⟨rfl, rfl, by unfold TitlesAuthorsNonEmpty; decide,
    by unfold TitlesAuthorsNonEmpty; decide⟩

/-! ### Rounding and ranking lemmas for the grade analyzer -/

theorem rhe_intCast (n : ℤ) : rhe (n : ℚ) = n := by
  unfold rhe
  rw [Int.floor_intCast]
  rw [if_neg (by norm_num), round_intCast]

theorem rhe_nonneg {q : ℚ} (h : 0 ≤ q) : 0 ≤ rhe q := by
  unfold rhe
  split_ifs with h1 h2
  · exact Int.le_floor.mpr (by exact_mod_cast h)
  · have := Int.le_floor.mpr (show ((0 : ℤ) : ℚ) ≤ q by exact_mod_cast h)
    omega
  · rw [round_eq]
    exact Int.le_floor.mpr (by push_cast; linarith)

theorem calculate_average_neg_one : calculate_average [-1] = -1 := by
  have h1 : (10 : ℚ) * ((([-1] : List Int).sum : ℚ) / (([-1] : List Int).length : ℚ)) =
      ((-10 : ℤ) : ℚ) := by
    norm_num
  unfold calculate_average
  rw [h1, rhe_intCast]
  norm_num

theorem calculate_average_nonneg {gs : List Int} (hne : gs ≠ [])
    (h : ∀ g ∈ gs, 0 ≤ g) : 0 ≤ calculate_average gs := by
  unfold calculate_average
  have hs : (0 : ℚ) ≤ (gs.sum : ℚ) := by exact_mod_cast List.sum_nonneg h
  have hq : (0 : ℚ) ≤ 10 * ((gs.sum : ℚ) / (gs.length : ℚ)) := by positivity
  have hr := rhe_nonneg hq
  have : (0 : ℚ) ≤ ((rhe (10 * ((gs.sum : ℚ) / (gs.length : ℚ)))) : ℚ) := by
    exact_mod_cast hr
  linarith

theorem pmax_mem (x : Student) (xs : List Student) : pmax x xs ∈ x :: xs := by
  induction xs generalizing x with
  | nil => simp [pmax]
  | cons y ys ih =>
    have h := ih (pstep x y)
    have hxy : pstep x y = x ∨ pstep x y = y := by
      unfold pstep
      split_ifs
      · exact Or.inr rfl
      · exact Or.inl rfl
    have hstep : pmax x (y :: ys) = pmax (pstep x y) ys := rfl
    rw [hstep]
    rcases List.mem_cons.mp h with h1 | h1
    · rcases hxy with h2 | h2 <;> rw [h1, h2] <;> simp
    · simp [List.mem_cons, h1]

theorem pmax_ub (x : Student) (xs : List Student) :
    ∀ z ∈ x :: xs, rank_key z ≤ rank_key (pmax x xs) := by
  induction xs generalizing x with
  | nil =>
    intro z hz
    rcases List.mem_cons.mp hz with rfl | h1
    · exact le_refl _
    · cases h1
  | cons y ys ih =>
    intro z hz
    have hx : rank_key x ≤ rank_key (pstep x y) := by
      unfold pstep
      split_ifs with hlt
      · exact le_of_lt hlt
      · exact le_refl _
    have hy : rank_key y ≤ rank_key (pstep x y) := by
      unfold pstep
      split_ifs with hlt
      · exact le_refl _
      · exact le_of_not_lt hlt
    have hstep : pmax x (y :: ys) = pmax (pstep x y) ys := rfl
    rw [hstep]
    have hub := ih (pstep x y)
    rcases List.mem_cons.mp hz with rfl | hz2
    · exact le_trans hx (hub _ (List.mem_cons_self _ _))
    · rcases List.mem_cons.mp hz2 with rfl | hz3
      · exact le_trans hy (hub _ (List.mem_cons_self _ _))
      · exact hub z (List.mem_cons_of_mem _ hz3)

/-- C7: top-performer selection — whenever every grade is valid and at
least one student has grades, the selected top student has grades, the
rounded (one-decimal) average of every graded student is at most the
top average, every graded student whose average equals the top average
is reported jointly, every reported name belongs to a graded student
achieving the top average (so a scoreless student is never selected),
and every reported average is an integer number of tenths. -/
theorem C7_top_performer (students : List Student)
    (hval : ∀ st ∈ students, ∀ g ∈ st.grades, valid_grade g)
    (hsome : ∃ st ∈ students, st.grades ≠ []) :
    ∃ ts, top_student students = some ts ∧ ts.grades ≠ [] ∧
      (∀ p ∈ all_averages students, p.2 ≤ calculate_average ts.grades) ∧
      (∀ p ∈ all_averages students,
        p.2 = calculate_average ts.grades → p.1 ∈ top_names students) ∧
      (∀ n ∈ top_names students, ∃ st ∈ students, st.grades ≠ [] ∧
        st.name = n ∧ calculate_average st.grades = calculate_average ts.grades) ∧
      (∀ p ∈ all_averages students, ∃ z : ℤ, p.2 = (z : ℚ) / 10) := by
  obtain ⟨st0, hst0mem, hst0g⟩ := hsome
  cases students with
  | nil => cases hst0mem
  | cons x xs =>
    have hub := pmax_ub x xs
    have hrk : ∀ st : Student, st.grades ≠ [] →
        rank_key st = calculate_average st.grades := by
      intro st h
      unfold rank_key
      rw [if_neg (by simp [List.isEmpty_iff, h])]
    have hrk0 : ∀ st : Student, st.grades = [] → rank_key st = -1 := by
      intro st h
      unfold rank_key
      rw [if_pos (by simp [h])]
      exact calculate_average_neg_one
    have htsg : (pmax x xs).grades ≠ [] := by
      intro hempty
      have h1 : rank_key (pmax x xs) = -1 := hrk0 _ hempty
      have h2 : rank_key st0 = calculate_average st0.grades := hrk st0 hst0g
      have h3 : 0 ≤ calculate_average st0.grades :=
        calculate_average_nonneg hst0g (fun g hg => (hval st0 hst0mem g hg).1)
      have h4 := hub st0 hst0mem
      rw [h1, h2] at h4
      linarith
    have hgr_of_mem : ∀ st : Student,
        st ∈ (x :: xs).filter (fun st => !st.grades.isEmpty) →
        st ∈ x :: xs ∧ st.grades ≠ [] := by
      intro st hstmem
      have hstf := List.mem_filter.mp hstmem
      refine ⟨hstf.1, ?_⟩
      have h2 := hstf.2
      simp only [Bool.not_eq_true', List.isEmpty_eq_false] at h2
      exact h2
    have hmax : ∀ p ∈ all_averages (x :: xs),
        p.2 ≤ calculate_average (pmax x xs).grades := by
      intro p hp
      rcases List.mem_map.mp hp with ⟨st, hstmem, rfl⟩
      obtain ⟨hmem2, hg⟩ := hgr_of_mem st hstmem
      have h5 := hub st hmem2
      rw [hrk st hg, hrk _ htsg] at h5
      exact h5
    have htn : top_names (x :: xs) = ((all_averages (x :: xs)).filter
        (fun p => decide (p.2 = calculate_average (pmax x xs).grades))).map
        Prod.fst := rfl
    refine ⟨pmax x xs, rfl, htsg, hmax, ?_, ?_, ?_⟩
    · intro p hp hpeq
      rw [htn]
      exact List.mem_map.mpr ⟨p, List.mem_filter.mpr ⟨hp, by simp [hpeq]⟩, rfl⟩
    · intro n hn
      rw [htn] at hn
      rcases List.mem_map.mp hn with ⟨p, hpf, rfl⟩
      have hpm := List.mem_filter.mp hpf
      rcases List.mem_map.mp hpm.1 with ⟨st, hstmem, rfl⟩
      obtain ⟨hmem2, hg⟩ := hgr_of_mem st hstmem
      have heq : calculate_average st.grades =
          calculate_average (pmax x xs).grades := by
        have h6 := hpm.2
        simpa using h6
      exact ⟨st, hmem2, hg, rfl, heq⟩
    · intro p hp
      rcases List.mem_map.mp hp with ⟨st, hstmem, rfl⟩
      exact ⟨rhe (10 * ((st.grades.sum : ℚ) / (st.grades.length : ℚ))), rfl⟩

/-- C7 witness: on a graded student and a scoreless student the theorem
selects a top student who has grades. -/
theorem C7_top_performer_witness :
    ∃ ts, top_student demoStudents = some ts ∧ ts.grades ≠ [] :=
  match C7_top_performer demoStudents (by decide)
      ⟨⟨"Alice", [90, 80]⟩, by decide, by decide⟩ with
  | ⟨ts, h1, h2, _⟩ => ⟨ts, h1, h2⟩
